import Mathlib

/-!
# Verification of the Automatic_Pipeline deduplication core

Shallow embedding of the deduplication / incremental-tracking core of the
repository:

* `src/utils/collection_tracker.mjs` (class `CollectionTracker`)
* `src/unnamed/part_006` (class `AdvancedDeduplication`)

JavaScript strings are embedded as `List Char`; JavaScript objects used as
string-keyed maps are embedded as association lists in insertion order
(`obj[k] = v` updates in place when the key exists, appends otherwise);
timestamps (millisecond epoch values compared through `Date`) are embedded
as `Int`; JavaScript numbers used as similarity ratios are embedded as `ℚ`.
A missing / `undefined` string field is embedded as the empty string, which
matches JavaScript truthiness for the `if (signal.field)` guards used by the
source (only `''` is falsy among the strings involved).
-/

set_option linter.unusedVariables false

/-- JavaScript strings, embedded as lists of characters. -/
abbrev Str := List Char

/-- Conversion from Lean string literals, for concrete test inputs. -/
def strL (s : String) : Str := s.data

/-- `String.prototype.toLowerCase()` (ASCII range, which covers the
repository's keys and reason strings). -/
def toLowerStr (l : Str) : Str := l.map Char.toLower

/-- Whitespace class of the JavaScript regexes `\s`. -/
def isSpaceB (c : Char) : Bool := c.isWhitespace

/-- Word-character class of the JavaScript regex `\w` = `[A-Za-z0-9_]`. -/
def isWordCharB (c : Char) : Bool := c.isAlpha || c.isDigit || c == '_'

/-- Helper of `collapseWs`; the flag records whether the previous input
character was whitespace (in which case further whitespace is dropped). -/
def collapseWsAux : Bool → Str → Str
  | _, [] => []
  | prevSpace, c :: rest =>
    if isSpaceB c then
      if prevSpace then collapseWsAux true rest
      else ' ' :: collapseWsAux true rest
    else c :: collapseWsAux false rest

/-- `.replace(/\s+/g, ' ')`: collapse every whitespace run to one space. -/
def collapseWs (l : Str) : Str := collapseWsAux false l

/-- `String.prototype.trim()`. -/
def trimStr (l : Str) : Str :=
  ((l.dropWhile isSpaceB).reverse.dropWhile isSpaceB).reverse

/-- Association-list lookup (first entry with the given key), the embedding
of reading `obj[k]` on a JavaScript object used as a map. -/
def alookup (k : Str) {α : Type} : List (Str × α) → Option α
  | [] => none
  | (k', v) :: rest => if k' = k then some v else alookup k rest

/-- The embedding of the JavaScript assignment `obj[k] = v`: replace the
first entry with this key in place, append when the key is absent
(JavaScript object keys are unique and keep insertion order, so this is
exact on every state a JavaScript object can be in). -/
def upsert {α : Type} (k : Str) (v : α) : List (Str × α) → List (Str × α)
  | [] => [(k, v)]
  | (k', v') :: rest => if k' = k then (k, v) :: rest else (k', v') :: upsert k v rest

/-- Boolean substring containment, the embedding of
`String.prototype.includes`. -/
def isInfixB (l₁ l₂ : Str) : Bool := l₂.tails.any (fun t => l₁.isPrefixOf t)

/-- `url.split('?')[0].split('#')[0].toLowerCase()`, the URL-cleaning step
of `checkURLAlreadyProcessed`. -/
def cleanUrlJS (u : Str) : Str :=
  toLowerStr ((u.takeWhile (fun c => c != '?')).takeWhile (fun c => c != '#'))

/-! ## Model of the platform URL parser

`CollectionTracker.normalizeUrl` calls the platform builtin `new URL(url)`
(WHATWG parser), which is not part of the repository.  The structure and
parser below model it for plain absolute URLs of the shape
`scheme://authority/path?query#fragment`: the scheme must be non-empty,
alphanumeric/`+`/`-`/`.` starting with a letter and must be followed by
`://` and a non-empty authority; scheme and host are lowercased by the
parser, as the platform does; userinfo/port splitting and percent decoding
are not modelled (not exercised by the repository's inputs). Any other
input is a parse failure, modelling the `new URL` throw. -/

structure URLRec where
  /-- `urlObj.protocol`, lowercased scheme including the trailing `:`. -/
  protocol : Str
  /-- `urlObj.host`, lowercased. -/
  host : Str
  /-- `urlObj.pathname`, `"/"` when the input has an empty path. -/
  pathname : Str
  /-- `urlObj.searchParams` as ordered key/value pairs. -/
  search : List (Str × Str)
deriving DecidableEq

/-- Split at the first occurrence of `sep`: returns the part before it and,
when `sep` occurs, the part after it. -/
def splitFirst (sep : Char) : Str → Str × Option Str
  | [] => ([], none)
  | c :: rest =>
    if c = sep then ([], some rest)
    else
      let r := splitFirst sep rest
      (c :: r.1, r.2)

/-- Split at every occurrence of `sep`. -/
def splitAll (sep : Char) (l : Str) : List Str :=
  let r := l.foldl
    (fun (acc : List Str × Str) c =>
      if c = sep then (acc.1 ++ [acc.2], []) else (acc.1, acc.2 ++ [c]))
    ([], [])
  r.1 ++ [r.2]

/-- Characters allowed in a URL scheme after the leading letter. -/
def isSchemeCharB (c : Char) : Bool := c.isAlpha || c.isDigit || c == '+' || c == '-' || c == '.'

/-- Model of the platform `new URL` parser (see the section comment):
`some` on a well-formed absolute URL, `none` where the builtin throws. -/
def parseURL (s : Str) : Option URLRec :=
  let p := splitFirst ':' s
  match p.2 with
  | none => none
  | some rest =>
    let scheme := p.1
    if scheme.isEmpty then none
    else if !(scheme.all isSchemeCharB) then none
    else if !((scheme.head?.map Char.isAlpha).getD false) then none
    else
      match rest with
      | '/' :: '/' :: rest2 =>
        let authority := rest2.takeWhile (fun c => !(c == '/' || c == '?' || c == '#'))
        if authority.isEmpty then none
        else
          let afterAuth := rest2.drop authority.length
          let pathRaw := afterAuth.takeWhile (fun c => !(c == '?' || c == '#'))
          let pathname := if pathRaw.isEmpty then ['/'] else pathRaw
          let afterPath := afterAuth.drop pathRaw.length
          let search :=
            match afterPath with
            | '?' :: q =>
              let query := q.takeWhile (fun c => !(c == '#'))
              (splitAll '&' query).filterMap (fun piece =>
                if piece.isEmpty then none
                else
                  let kv := splitFirst '=' piece
                  some (kv.1, kv.2.getD []))
            | _ => []
          some { protocol := toLowerStr scheme ++ [':'],
                 host := toLowerStr authority,
                 pathname := pathname,
                 search := search }
      | _ => none

/-! ## Signals -/

/-- One observed item, with every string field the source reads.  A field
the JavaScript object lacks is the empty string (both are falsy exactly
when empty in the guards the source uses). -/
structure Signal where
  source : Str := []
  title : Str := []
  link : Str := []
  content : Str := []
  url : Str := []
  judul : Str := []
  repo : Str := []
deriving DecidableEq

/-- `signal.url || signal.link || ''` from `collection_tracker.mjs`. -/
def Signal.effUrl (s : Signal) : Str := if s.url.isEmpty then s.link else s.url

/-- `signal.title || signal.judul || ''` from `collection_tracker.mjs`. -/
def Signal.effTitle (s : Signal) : Str := if s.title.isEmpty then s.judul else s.title

/-- `signal.source || signal.repo || 'Unknown'` from `collection_tracker.mjs`. -/
def Signal.effSource (s : Signal) : Str :=
  if !s.source.isEmpty then s.source
  else if !s.repo.isEmpty then s.repo
  else strL "Unknown"

/-! ## Collection Tracker (`src/utils/collection_tracker.mjs`) -/

/-- `normalizeTitle` (lines 125–133): lowercase, strip characters outside
`\w`/`\s`, collapse whitespace, trim. -/
def normalizeTitle (title : Str) : Str :=
  if title.isEmpty then []
  else trimStr (collapseWs ((toLowerStr title).filter (fun c => isWordCharB c || isSpaceB c)))

/-- The fixed tracking-parameter list of `normalizeUrl` (line 108). -/
def paramsToRemove : List Str :=
  [strL "utm_source", strL "utm_medium", strL "utm_campaign",
   strL "utm_content", strL "utm_term", strL "ref", strL "source"]

/-- `normalizeUrl` (lines 102–122): parse; delete the tracking parameters;
drop a single trailing slash from the path; rebuild from
`protocol + "//" + host + path` (so the query and fragment never reach
the output); on parse failure return the input unchanged. -/
def normalizeUrl (url : Str) : Str :=
  if url.isEmpty then []
  else
    match parseURL url with
    | none => url
    | some urlObj0 =>
      let urlObj :=
        { urlObj0 with search := urlObj0.search.filter (fun kv => !(paramsToRemove.contains kv.1)) }
      let path :=
        if (urlObj.pathname.getLast? == some '/') && decide (1 < urlObj.pathname.length)
        then urlObj.pathname.dropLast
        else urlObj.pathname
      urlObj.protocol ++ strL "//" ++ urlObj.host ++ path

/-- Persisted Collection Tracker state: the `collected` maps of the
`global` and `today` scopes (key → millisecond timestamp).  A missing
`collected` object is embedded as the empty map. -/
structure CollState where
  global : List (Str × Int) := []
  today : List (Str × Int) := []
deriving DecidableEq

/-- The four keys of `isAlreadyCollected` / `markAsCollected`
(lines 64–70 and 145–151). -/
def signalKeys (s : Signal) : List Str :=
  let normalizedUrl := normalizeUrl s.effUrl
  let normalizedTitle := normalizeTitle s.effTitle
  let source := s.effSource
  [ toLowerStr (source ++ [':'] ++ normalizedUrl ++ [':'] ++ normalizedTitle),
    toLowerStr (source ++ [':'] ++ normalizedUrl),
    toLowerStr normalizedTitle,
    toLowerStr (source ++ [':'] ++ normalizedTitle) ]

/-- `isAlreadyCollected` (lines 55–99): any key present in today's scope,
or present in the global scope with age at most 7 days. -/
def isAlreadyCollected (st : CollState) (s : Signal) (now : Int) : Bool :=
  (signalKeys s).any (fun k => (alookup k st.today).isSome)
  || (signalKeys s).any (fun k =>
      match alookup k st.global with
      | some t => decide ((((now - t : Int) : ℚ) / 86400000) ≤ 7)
      | none => false)

/-- `cleanupOldEntries` (lines 174–190): delete global entries strictly
older than 30 days (days modelled as fixed 86400000 ms, i.e. UTC). -/
def cleanupOldEntries (st : CollState) (now : Int) : CollState :=
  { st with global := st.global.filter (fun kv => !(decide (kv.2 < now - 2592000000))) }

/-- `markAsCollected` (lines 136–171): write all four keys into both
scopes with the current timestamp, then prune the global scope. -/
def markAsCollected (st : CollState) (s : Signal) (now : Int) : CollState :=
  let keys := signalKeys s
  let today' := keys.foldl (fun m k => upsert k now m) st.today
  let global' := keys.foldl (fun m k => upsert k now m) st.global
  cleanupOldEntries { global := global', today := today' } now

/-- `filterNewSignals` (lines 205–220): one left-to-right pass,
check-then-mark per signal; returns new signals, skipped signals and the
final tracker state. -/
def filterNewSignals : CollState → Int → List Signal → List Signal × List Signal × CollState
  | st, _, [] => ([], [], st)
  | st, now, s :: rest =>
    if isAlreadyCollected st s now then
      let r := filterNewSignals st now rest
      (r.1, s :: r.2.1, r.2.2)
    else
      let st1 := markAsCollected st s now
      let r := filterNewSignals st1 now rest
      (s :: r.1, r.2.1, r.2.2)

/-! ## Advanced Deduplication (`src/unnamed/part_006`) -/

/-- `ToInt32` coercion applied by the JavaScript `<<` and `&` operators:
reduce modulo `2^32` into the two's-complement range `[-2^31, 2^31)`. -/
def toInt32 (x : Int) : Int :=
  if 2147483648 ≤ x % 4294967296 then x % 4294967296 - 4294967296 else x % 4294967296

/-- One step of `simpleHash`'s loop (line 73–74):
`hash = ((hash << 5) - hash) + str.charCodeAt(i); hash = hash & hash`. -/
def hashStep (h : Int) (c : Char) : Int :=
  toInt32 (toInt32 (h * 32) - h + (c.toNat : Int))

/-- One base-36 digit as produced by `Number.prototype.toString(36)`:
`0`–`9` then `a`–`z`. -/
def digit36 (d : Nat) : Char :=
  if d < 10 then Char.ofNat (48 + d) else Char.ofNat (87 + d)

/-- Fuel-indexed helper of `toBase36`; the fuel only has to exceed the
value for the rendering to be complete (each step divides by 36). -/
def toBase36Go : Nat → Nat → Str
  | 0, _ => []
  | fuel + 1, n =>
    if n < 36 then [digit36 n]
    else toBase36Go fuel (n / 36) ++ [digit36 (n % 36)]

/-- `Math.abs(hash).toString(36)`: base-36 rendering of a natural number
(most significant digit first, `"0"` for zero, no padding). -/
def toBase36 (n : Nat) : Str := toBase36Go (n + 1) n

/-- `simpleHash` (lines 69–77). -/
def simpleHash (str : Str) : Str :=
  toBase36 (str.foldl hashStep 0).natAbs

/-- The normalization shared by `generateContentHash` and
`generateTitleHash` (lines 39–43 and 53–57): lowercase, strip characters
outside `\w`/`\s`, collapse whitespace runs, trim. -/
def dedupNormalize (text : Str) : Str :=
  trimStr (collapseWs ((toLowerStr text).filter (fun c => isWordCharB c || isSpaceB c)))

/-- `generateContentHash` (lines 35–47). -/
def generateContentHash (content : Str) : Str :=
  if content.isEmpty then [] else simpleHash (dedupNormalize content)

/-- `generateTitleHash` (lines 50–60). -/
def generateTitleHash (title : Str) : Str :=
  if title.isEmpty then [] else simpleHash (dedupNormalize title)

/-- `calculateSimilarity` (lines 115–132): matching characters at
corresponding positions up to the shorter length, divided by the longer
length; `1.0` when both are empty. -/
def calculateSimilarity (hash1 hash2 : Str) : ℚ :=
  let len1 := hash1.length
  let len2 := hash2.length
  let maxLen := max len1 len2
  if maxLen = 0 then 1
  else
    let matchCount := ((hash1.zip hash2).filter (fun p => p.1 == p.2)).length
    (matchCount : ℚ) / (maxLen : ℚ)

/-- A value of the `published` / `content_hashes` maps.  `markAsPublished`
writes no `status` field (embedded as `none`); `markAsProcessed` writes
`status: 'processed'`. -/
structure PubRecord where
  timestamp : Int
  source : Str
  title : Str
  link : Str
  status : Option Str := none
deriving DecidableEq

/-- A value of the `title_hashes` map (`markAsPublished` lines 336–340:
timestamp, source and link only). -/
structure TitleRecord where
  timestamp : Int
  source : Str
  link : Str
deriving DecidableEq

/-- The persisted `AdvancedDeduplication` tracker state. -/
structure DedupTracker where
  published : List (Str × PubRecord) := []
  content_hashes : List (Str × PubRecord) := []
  title_hashes : List (Str × TitleRecord) := []
  source_hashes : List (Str × List Int) := []
deriving DecidableEq

/-- `generateSignalKey` (lines 230–235):
`lower(source) + ":" + lower(link) + ":" + lower(title) stripped to [a-z0-9]`. -/
def generateSignalKey (s : Signal) : Str :=
  toLowerStr s.source ++ [':'] ++ toLowerStr s.link ++ [':']
    ++ (toLowerStr s.title).filter (fun c => (decide ('a' ≤ c) && decide (c ≤ 'z')) || c.isDigit)

/-- `checkAlreadyPublished` (lines 200–203). -/
def DedupTracker.checkAlreadyPublished (t : DedupTracker) (s : Signal) : Bool :=
  (alookup (generateSignalKey s) t.published).isSome

/-- `checkURLAlreadyProcessed` (lines 206–227): substring scan of the
stored `link` fields of `published` and `content_hashes` against the
cleaned, lowercased URL. -/
def DedupTracker.checkURLAlreadyProcessed (t : DedupTracker) (url : Str) : Bool :=
  if url.isEmpty then false
  else
    let cleanUrl := cleanUrlJS url
    t.published.any (fun p => !p.2.link.isEmpty && isInfixB cleanUrl (toLowerStr p.2.link))
    || t.content_hashes.any (fun p => !p.2.link.isEmpty && isInfixB cleanUrl (toLowerStr p.2.link))

/-- Result record of the similarity checks; a field the JavaScript result
object lacks keeps its default here. -/
structure CheckResult (α : Type) where
  isDuplicate : Bool
  similarity : ℚ := 0
  reason : Str := []
  original : Option α := none
deriving DecidableEq

/-- `checkContentSimilarity` (lines 80–112): exact hash hit first, else the
first stored hash whose positional similarity reaches the threshold. -/
def DedupTracker.checkContentSimilarity (t : DedupTracker) (content : Str) (threshold : ℚ) :
    CheckResult PubRecord :=
  let contentHash := generateContentHash content
  match alookup contentHash t.content_hashes with
  | some orig =>
    { isDuplicate := true, similarity := 1, reason := strL "exact_content_match", original := some orig }
  | none =>
    match t.content_hashes.find? (fun p => decide (threshold ≤ calculateSimilarity contentHash p.1)) with
    | some p =>
      { isDuplicate := true, similarity := calculateSimilarity contentHash p.1,
        reason := strL "similar_content", original := some p.2 }
    | none => { isDuplicate := false, similarity := 0 }

/-- `checkTitleSimilarity` (lines 135–166), over `title_hashes`. -/
def DedupTracker.checkTitleSimilarity (t : DedupTracker) (title : Str) (threshold : ℚ) :
    CheckResult TitleRecord :=
  let titleHash := generateTitleHash title
  match alookup titleHash t.title_hashes with
  | some orig =>
    { isDuplicate := true, similarity := 1, reason := strL "exact_title_match", original := some orig }
  | none =>
    match t.title_hashes.find? (fun p => decide (threshold ≤ calculateSimilarity titleHash p.1)) with
    | some p =>
      { isDuplicate := true, similarity := calculateSimilarity titleHash p.1,
        reason := strL "similar_title", original := some p.2 }
    | none => { isDuplicate := false, similarity := 0 }

/-- Result record of `checkSourceFrequency`; absent fields keep defaults. -/
structure FreqResult where
  isDuplicate : Bool
  reason : Str := []
  count : Nat := 0
  limit : Nat := 0
deriving DecidableEq

/-- `checkSourceFrequency` (lines 169–197): count this source's timestamps
within the trailing hour; duplicate iff the count reaches the limit. -/
def DedupTracker.checkSourceFrequency (t : DedupTracker) (source : Str) (maxPerHour : Nat)
    (now : Int) : FreqResult :=
  let oneHourAgo := now - 3600000
  let sourceKey := trimStr (toLowerStr source)
  let sourceHistory := (alookup sourceKey t.source_hashes).getD []
  let recentPosts := sourceHistory.filter (fun ts => decide (oneHourAgo < ts))
  if maxPerHour ≤ recentPosts.length then
    { isDuplicate := true, reason := strL "source_frequency_limit",
      count := recentPosts.length, limit := maxPerHour }
  else { isDuplicate := false, count := recentPosts.length }

/-- The `options` object of `checkDeduplication` with the source defaults
(lines 239–248). -/
structure DedupOptions where
  contentSimilarityThreshold : ℚ := 4 / 5
  titleSimilarityThreshold : ℚ := 9 / 10
  maxSourcePerHour : Nat := 3
  checkContent : Bool := true
  checkTitle : Bool := true
  checkSource : Bool := true
  checkAlreadyPublished : Bool := true
  checkURLProcessed : Bool := true
deriving DecidableEq

/-- The `details` object accumulated by `checkDeduplication`; a field never
assigned keeps its default. -/
structure DedupDetails where
  urlProcessed : Bool := false
  alreadyPublished : Bool := false
  contentSimilarity : Option (CheckResult PubRecord) := none
  titleSimilarity : Option (CheckResult TitleRecord) := none
  sourceFrequency : Option FreqResult := none
deriving DecidableEq

/-- The result object of `checkDeduplication`. -/
structure DedupResult where
  isDuplicate : Bool
  reasons : List Str
  details : DedupDetails
deriving DecidableEq

/-- `checkDeduplication` (lines 238–307): URL-processed and
already-published short-circuit with an immediate return; the
content/title/source checks all run and accumulate their reasons. -/
def DedupTracker.checkDeduplication (t : DedupTracker) (s : Signal) (o : DedupOptions)
    (now : Int) : DedupResult :=
  if o.checkURLProcessed && !s.link.isEmpty && t.checkURLAlreadyProcessed s.link then
    { isDuplicate := true, reasons := [strL "url_already_processed"],
      details := { urlProcessed := true } }
  else if o.checkAlreadyPublished && t.checkAlreadyPublished s then
    { isDuplicate := true, reasons := [strL "already_published"],
      details := { alreadyPublished := true } }
  else
    let r0 : DedupResult := { isDuplicate := false, reasons := [], details := {} }
    let r1 :=
      if o.checkContent && !s.content.isEmpty then
        let contentCheck := t.checkContentSimilarity s.content o.contentSimilarityThreshold
        if contentCheck.isDuplicate then
          { r0 with
            isDuplicate := true,
            reasons := r0.reasons ++ [contentCheck.reason],
            details := { r0.details with contentSimilarity := some contentCheck } }
        else r0
      else r0
    let r2 :=
      if o.checkTitle && !s.title.isEmpty then
        let titleCheck := t.checkTitleSimilarity s.title o.titleSimilarityThreshold
        if titleCheck.isDuplicate then
          { r1 with
            isDuplicate := true,
            reasons := r1.reasons ++ [titleCheck.reason],
            details := { r1.details with titleSimilarity := some titleCheck } }
        else r1
      else r1
    let r3 :=
      if o.checkSource && !s.source.isEmpty then
        let sourceCheck := t.checkSourceFrequency s.source o.maxSourcePerHour now
        if sourceCheck.isDuplicate then
          { r2 with
            isDuplicate := true,
            reasons := r2.reasons ++ [sourceCheck.reason],
            details := { r2.details with sourceFrequency := some sourceCheck } }
        else r2
      else r2
    r3

/-- `markAsPublished` (lines 310–361).  The `published` entry is written
with no `status` field; the source's timestamp list is appended to and
pruned to the trailing 24 hours. -/
def DedupTracker.markAsPublished (t : DedupTracker) (s : Signal) (now : Int) : DedupTracker :=
  let signalKey := generateSignalKey s
  let pubRec : PubRecord := { timestamp := now, source := s.source, title := s.title, link := s.link }
  let t1 := { t with published := upsert signalKey pubRec t.published }
  let t2 :=
    if s.content.isEmpty then t1
    else { t1 with content_hashes := upsert (generateContentHash s.content) pubRec t1.content_hashes }
  let titleRec : TitleRecord := { timestamp := now, source := s.source, link := s.link }
  let t3 :=
    if s.title.isEmpty then t2
    else { t2 with title_hashes := upsert (generateTitleHash s.title) titleRec t2.title_hashes }
  if s.source.isEmpty then t3
  else
    let sourceKey := trimStr (toLowerStr s.source)
    let oneDayAgo := now - 86400000
    let history := (alookup sourceKey t3.source_hashes).getD []
    let pruned := (history ++ [now]).filter (fun ts => decide (oneDayAgo < ts))
    { t3 with source_hashes := upsert sourceKey pruned t3.source_hashes }

/-- `markAsProcessed` (lines 364–388): `published` and (when content is
present) `content_hashes` entries with `status: 'processed'`. -/
def DedupTracker.markAsProcessed (t : DedupTracker) (s : Signal) (now : Int) : DedupTracker :=
  let signalKey := generateSignalKey s
  let procRec : PubRecord :=
    { timestamp := now, source := s.source, title := s.title, link := s.link,
      status := some (strL "processed") }
  let t1 := { t with published := upsert signalKey procRec t.published }
  if s.content.isEmpty then t1
  else { t1 with content_hashes := upsert (generateContentHash s.content) procRec t1.content_hashes }

/-- A later mark operation on the same tracker instance. -/
inductive DedupOp where
  | pub (s : Signal) (now : Int)
  | proc (s : Signal) (now : Int)

/-- Apply one mark operation. -/
def applyOp (t : DedupTracker) : DedupOp → DedupTracker
  | .pub s now => t.markAsPublished s now
  | .proc s now => t.markAsProcessed s now

/-- Apply a sequence of later mark operations, oldest first. -/
def applyOps (t : DedupTracker) (ops : List DedupOp) : DedupTracker :=
  ops.foldl applyOp t

/-- One entry of the `duplicates` output of `filterSignalsForPublishing`. -/
structure DupEntry where
  signal : Signal
  reasons : List Str
  details : DedupDetails
deriving DecidableEq

/-- The options object of `filterSignalsForPublishing` with the source
defaults (lines 392–397). -/
structure PublishOptions where
  contentSimilarityThreshold : ℚ := 4 / 5
  titleSimilarityThreshold : ℚ := 9 / 10
  maxSourcePerHour : Nat := 3
  maxSignalsPerRun : Nat := 50
deriving DecidableEq

/-- The explicit all-checks-on options `filterSignalsForPublishing`
passes to `checkDeduplication` (lines 406–415). -/
def pubCheckOptions (o : PublishOptions) : DedupOptions :=
  { contentSimilarityThreshold := o.contentSimilarityThreshold,
    titleSimilarityThreshold := o.titleSimilarityThreshold,
    maxSourcePerHour := o.maxSourcePerHour,
    checkContent := true, checkTitle := true, checkSource := true,
    checkAlreadyPublished := true, checkURLProcessed := true }

/-- The loop of `filterSignalsForPublishing` (lines 405–435): classify each
signal, then break as soon as the approved count has reached
`maxSignalsPerRun` (the count is tested after the current signal has been
classified).  `n` is the number of signals approved so far. -/
def fspGo (t : DedupTracker) (now : Int) (o : PublishOptions) :
    List Signal → Nat → List Signal × List DupEntry
  | [], _ => ([], [])
  | s :: rest, n =>
    let r := t.checkDeduplication s (pubCheckOptions o) now
    if r.isDuplicate then
      if o.maxSignalsPerRun ≤ n then ([], [⟨s, r.reasons, r.details⟩])
      else
        let q := fspGo t now o rest n
        (q.1, ⟨s, r.reasons, r.details⟩ :: q.2)
    else
      if o.maxSignalsPerRun ≤ n + 1 then ([s], [])
      else
        let q := fspGo t now o rest (n + 1)
        (s :: q.1, q.2)

/-- `filterSignalsForPublishing` (lines 391–447): returns
`(approved, duplicates, skipped)`; the `skippedSignals` list is created
empty and never pushed to. -/
def DedupTracker.filterSignalsForPublishing (t : DedupTracker) (signals : List Signal)
    (o : PublishOptions) (now : Int) : List Signal × List DupEntry × List Signal :=
  let skippedSignals : List Signal := []
  let q := fspGo t now o signals 0
  (q.1, q.2, skippedSignals)

/-! ## Concrete test fixtures -/

/-- Concrete signal: source A, non-empty link, title "Crypto T". -/
def c2sig1 : Signal :=
  { source := strL "A", link := strL "http://x.com/1", title := strL "Crypto T" }

/-- Concrete signal: different source B, different non-empty link, same title. -/
def c2sig2 : Signal :=
  { source := strL "B", link := strL "http://y.com/2", title := strL "Crypto T" }

/-- Concrete parse of the C4 witness URL. -/
def c4urec : URLRec :=
  { protocol := strL "http:", host := strL "x.com", pathname := strL "/A/",
    search := [(strL "utm_source", strL "f"), (strL "b", strL "1")] }

/-- Concrete signal with all fields present. -/
def c3sig : Signal :=
  { source := strL "A", title := strL "T", link := strL "http://x.com/1", content := strL "body" }

/-- Concrete analysis with a non-empty link. -/
def c1sig : Signal :=
  { source := strL "A", title := strL "Foo", link := strL "http://x.com/1", content := strL "c" }

/-- Concrete signal for the C7 witness: no link, no content, a title whose
hash is already indexed and a source already at its hourly limit. -/
def s7c : Signal := { source := strL "a", title := strL "T" }

/-- Concrete tracker for the C7 witness. -/
def t7c : DedupTracker :=
  { title_hashes := [(generateTitleHash (strL "T"),
      { timestamp := 0, source := strL "z", link := [] })],
    source_hashes := [(strL "a", [10, 20, 30])] }

/-- Concrete signal approved by an empty tracker. -/
def c10sig : Signal := { title := strL "t" }

/-! ## Association-list toolbox -/

theorem alookup_upsert_self {α : Type} (k : Str) (v : α) (m : List (Str × α)) :
    alookup k (upsert k v m) = some v := by
  induction m with
  | nil => simp [alookup, upsert]
  | cons p rest ih =>
    obtain ⟨k', v'⟩ := p
    by_cases hk : k' = k
    · simp [upsert, hk, alookup]
    · simp [upsert, hk, alookup, ih]

theorem alookup_upsert_ne {α : Type} {k' k : Str} (h : k' ≠ k) (v : α) (m : List (Str × α)) :
    alookup k' (upsert k v m) = alookup k' m := by
  induction m with
  | nil =>
    simp only [upsert, alookup]
    rw [if_neg (fun hq : k = k' => h hq.symm)]
  | cons p rest ih =>
    obtain ⟨k₀, v₀⟩ := p
    by_cases hk : k₀ = k
    · subst hk
      simp only [upsert, if_pos rfl, alookup]
      rw [if_neg (fun hq : k₀ = k' => h hq.symm), if_neg (fun hq : k₀ = k' => h hq.symm)]
    · simp only [upsert, hk, if_false, alookup, ih]

theorem isSome_alookup_upsert {α : Type} {k : Str} {m : List (Str × α)} (k' : Str) (v : α)
    (h : (alookup k m).isSome) : (alookup k (upsert k' v m)).isSome := by
  by_cases hk : k' = k
  · subst hk
    rw [alookup_upsert_self]
    rfl
  · rw [alookup_upsert_ne (fun hq => hk hq.symm)]
    exact h

theorem mem_upsert_self {α : Type} (k : Str) (v : α) (m : List (Str × α)) :
    (k, v) ∈ upsert k v m := by
  induction m with
  | nil => simp [upsert]
  | cons p rest ih =>
    obtain ⟨k', v'⟩ := p
    by_cases hk : k' = k
    · simp [upsert, hk]
    · simp only [upsert, hk, if_false]
      exact List.mem_cons.mpr (Or.inr ih)

theorem mem_upsert_elim {α : Type} {p : Str × α} {k : Str} {v : α} {m : List (Str × α)}
    (h : p ∈ upsert k v m) : p ∈ m ∨ p = (k, v) := by
  induction m with
  | nil =>
    simp only [upsert] at h
    simp at h
    exact Or.inr h
  | cons q rest ih =>
    obtain ⟨k₀, v₀⟩ := q
    by_cases hk : k₀ = k
    · simp only [upsert, hk, if_true] at h
      rcases List.mem_cons.mp h with h1 | h2
      · exact Or.inr h1
      · exact Or.inl (List.mem_cons.mpr (Or.inr h2))
    · simp only [upsert, hk, if_false] at h
      rcases List.mem_cons.mp h with h1 | h2
      · exact Or.inl (List.mem_cons.mpr (Or.inl h1))
      · rcases ih h2 with hm | he
        · exact Or.inl (List.mem_cons.mpr (Or.inr hm))
        · exact Or.inr he

theorem isSome_alookup_foldl_upsert {α : Type} (v : α) {k : Str} :
    ∀ (keys : List Str) (m : List (Str × α)), (alookup k m).isSome →
      (alookup k (keys.foldl (fun m' k' => upsert k' v m') m)).isSome := by
  intro keys
  induction keys with
  | nil => intro m h; exact h
  | cons k₀ rest ih =>
    intro m h
    simp only [List.foldl_cons]
    exact ih _ (isSome_alookup_upsert k₀ v h)

theorem alookup_foldl_upsert_of_mem {α : Type} (v : α) {k : Str} :
    ∀ (keys : List Str) (m : List (Str × α)), k ∈ keys →
      (alookup k (keys.foldl (fun m' k' => upsert k' v m') m)).isSome := by
  intro keys
  induction keys with
  | nil => intro m h; simp at h
  | cons k₀ rest ih =>
    intro m h
    simp only [List.foldl_cons]
    by_cases hk : k = k₀
    · subst hk
      apply isSome_alookup_foldl_upsert
      rw [alookup_upsert_self]
      rfl
    · rcases List.mem_cons.mp h with h0 | hr
      · exact absurd h0 hk
      · exact ih _ hr

theorem mem_foldl_upsert_elim {α : Type} (v : α) {p : Str × α} :
    ∀ (keys : List Str) (m : List (Str × α)),
      p ∈ keys.foldl (fun m' k' => upsert k' v m') m →
      p ∈ m ∨ (p.1 ∈ keys ∧ p.2 = v) := by
  intro keys
  induction keys with
  | nil => intro m h; exact Or.inl h
  | cons k₀ rest ih =>
    intro m h
    simp only [List.foldl_cons] at h
    rcases ih _ h with h1 | h2
    · rcases mem_upsert_elim h1 with hm | he
      · exact Or.inl hm
      · subst he
        exact Or.inr ⟨List.mem_cons.mpr (Or.inl rfl), rfl⟩
    · exact Or.inr ⟨List.mem_cons.mpr (Or.inr h2.1), h2.2⟩

/-! ## Substring toolbox -/

theorem isInfixB_iff (l₁ l₂ : Str) : isInfixB l₁ l₂ = true ↔ l₁ <:+: l₂ := by
  unfold isInfixB
  rw [List.any_eq_true]
  constructor
  · rintro ⟨t, ht, hp⟩
    have hsuf := (List.mem_tails _ _).mp ht
    have hpre := List.isPrefixOf_iff_prefix.mp hp
    exact List.infix_iff_prefix_suffix.mpr ⟨t, hpre, hsuf⟩
  · intro h
    rcases List.infix_iff_prefix_suffix.mp h with ⟨t, hpre, hsuf⟩
    exact ⟨t, (List.mem_tails _ _).mpr hsuf, List.isPrefixOf_iff_prefix.mpr hpre⟩

theorem cleanUrlJS_prefixOf_toLower (u : Str) : cleanUrlJS u <+: toLowerStr u := by
  unfold cleanUrlJS toLowerStr
  have h1 : (u.takeWhile fun c => c != '?').takeWhile (fun c => c != '#') <+: u :=
    ( List.takeWhile_prefix _).trans ( List.takeWhile_prefix _)
  exact h1.map Char.toLower

theorem cleanUrlJS_infixOf_toLower {u link : Str} (h : cleanUrlJS u <:+: cleanUrlJS link) :
    cleanUrlJS u <:+: toLowerStr link :=
  h.trans ( List.IsPrefix.isInfix (cleanUrlJS_prefixOf_toLower link))

/-! ## Collection Tracker lemmas -/

theorem markAsCollected_today (st : CollState) (s : Signal) (now : Int) :
    (markAsCollected st s now).today =
      (signalKeys s).foldl (fun m k => upsert k now m) st.today := rfl

theorem markAsCollected_global (st : CollState) (s : Signal) (now : Int) :
    (markAsCollected st s now).global =
      ((signalKeys s).foldl (fun m k => upsert k now m) st.global).filter
        (fun kv => !(decide (kv.2 < now - 2592000000))) := rfl

theorem isAlreadyCollected_nil (s : Signal) (now : Int) :
    isAlreadyCollected { global := [], today := [] } s now = false := by
  unfold isAlreadyCollected
  simp [alookup]

theorem isAlreadyCollected_of_today_key {st : CollState} {s : Signal} (now : Int) (k : Str)
    (hk : k ∈ signalKeys s) (hsome : (alookup k st.today).isSome) :
    isAlreadyCollected st s now = true := by
  unfold isAlreadyCollected
  have h1 : (signalKeys s).any (fun k' => (alookup k' st.today).isSome) = true :=
    List.any_eq_true.mpr ⟨k, hk, hsome⟩
  rw [h1]
  rfl

/-- Sharing the normalized title makes the second signal hit the
title-only key written by marking the first. -/
theorem isAlreadyCollected_after_mark_title {st : CollState} {s₁ s₂ : Signal} (now now' : Int)
    (h : normalizeTitle s₂.effTitle = normalizeTitle s₁.effTitle) :
    isAlreadyCollected (markAsCollected st s₁ now) s₂ now' = true := by
  apply isAlreadyCollected_of_today_key now' (toLowerStr (normalizeTitle s₂.effTitle))
  · unfold signalKeys
    simp
  · rw [markAsCollected_today, h]
    apply alookup_foldl_upsert_of_mem
    unfold signalKeys
    simp

theorem filterNewSignals_single_new {st : CollState} {s : Signal} {now : Int}
    (h : isAlreadyCollected st s now = false) :
    filterNewSignals st now [s] = ([s], [], markAsCollected st s now) := by
  simp [filterNewSignals, h]

theorem filterNewSignals_single_dup {st : CollState} {s : Signal} {now : Int}
    (h : isAlreadyCollected st s now = true) :
    filterNewSignals st now [s] = ([], [s], st) := by
  simp [filterNewSignals, h]

/-! ## Claims about the Collection Tracker -/

/-- C2 counterexample: two signals with the same normalized title but
different sources and different non-empty links — after marking the first,
the Collection Tracker DOES treat the second as already collected (the
title-only key always registers), refuting the claim's first half. -/
theorem claim_C2_counterexample :
    isAlreadyCollected (markAsCollected { global := [], today := [] } c2sig1 0) c2sig2 0 = true
    ∧ c2sig1.source ≠ c2sig2.source
    ∧ c2sig1.link ≠ c2sig2.link
    ∧ c2sig1.link.isEmpty = false
    ∧ c2sig2.link.isEmpty = false
    ∧ normalizeTitle c2sig1.effTitle = normalizeTitle c2sig2.effTitle := by
  refine ⟨?_, by decide, by decide, by decide, by decide, by decide⟩
  exact isAlreadyCollected_after_mark_title 0 0 rfl

/-- C2 (amended): whenever two signals share a normalized title — whatever
their sources and links, empty or not — marking the first makes
`isAlreadyCollected` report the second as already collected, through the
title-only key of the multi-key scheme. -/
theorem claim_C2 (st : CollState) (s₁ s₂ : Signal) (now now' : Int)
    (h : normalizeTitle s₂.effTitle = normalizeTitle s₁.effTitle) :
    isAlreadyCollected (markAsCollected st s₁ now) s₂ now' = true :=
  isAlreadyCollected_after_mark_title now now' h

/-- Witness for C2: the amended theorem applied to the concrete pair. -/
theorem claim_C2_witness :
    isAlreadyCollected (markAsCollected { global := [], today := [] } c2sig1 3) c2sig2 7 = true :=
  claim_C2 { global := [], today := [] } c2sig1 c2sig2 3 7 (by decide)

/-- C5: on a fresh Collection Tracker, `filterNewSignals [S]` returns S as
new and marks it; a second call returns S as skipped; and a single call on
the batch `[S, S]` returns the first occurrence as new and the second as
skipped. -/
theorem claim_C5 (s : Signal) (now now' : Int) :
    (filterNewSignals { global := [], today := [] } now [s]).1 = [s]
    ∧ (filterNewSignals { global := [], today := [] } now [s]).2.1 = []
    ∧ (filterNewSignals ((filterNewSignals { global := [], today := [] } now [s]).2.2) now' [s]).1 = []
    ∧ (filterNewSignals ((filterNewSignals { global := [], today := [] } now [s]).2.2) now' [s]).2.1 = [s]
    ∧ (filterNewSignals { global := [], today := [] } now [s, s]).1 = [s]
    ∧ (filterNewSignals { global := [], today := [] } now [s, s]).2.1 = [s] := by
  have hnew : isAlreadyCollected { global := [], today := [] } s now = false :=
    isAlreadyCollected_nil s now
  have h1 : filterNewSignals { global := [], today := [] } now [s]
      = ([s], [], markAsCollected { global := [], today := [] } s now) :=
    filterNewSignals_single_new hnew
  have hdup : ∀ n : Int,
      isAlreadyCollected (markAsCollected { global := [], today := [] } s now) s n = true :=
    fun n => isAlreadyCollected_after_mark_title now n rfl
  refine ⟨by rw [h1], by rw [h1], ?_, ?_, ?_, ?_⟩
  · rw [h1, filterNewSignals_single_dup (hdup now')]
  · rw [h1, filterNewSignals_single_dup (hdup now')]
  · show (filterNewSignals { global := [], today := [] } now (s :: [s])).1 = [s]
    unfold filterNewSignals
    rw [hnew]
    simp only [Bool.false_eq_true, if_false, filterNewSignals_single_dup (hdup now)]
  · show (filterNewSignals { global := [], today := [] } now (s :: [s])).2.1 = [s]
    unfold filterNewSignals
    rw [hnew]
    simp only [Bool.false_eq_true, if_false, filterNewSignals_single_dup (hdup now)]

/-- C9: a global Collection Tracker entry whose timestamp is more than 30
days old (e.g. 31 days) is gone from the global scope after any
`markAsCollected` call, whatever signal is being marked — pruning is a
side effect of the write itself. -/
theorem claim_C9 (st : CollState) (s : Signal) (now t : Int) (k : Str)
    (hmem : (k, t) ∈ st.global) (hold : t < now - 2592000000) :
    ¬ ((k, t) ∈ (markAsCollected st s now).global) := by
  intro hin
  rw [markAsCollected_global] at hin
  have h2 := (List.mem_filter.mp hin).2
  simp only [Bool.not_eq_true'] at h2
  rw [decide_eq_false_iff_not] at h2
  exact h2 hold

/-- Witness for C9: a concrete entry 31 days old, pruned by marking an
unrelated empty signal. -/
theorem claim_C9_witness :
    (strL "k", (0 : Int)) ∈ ({ global := [(strL "k", 0)], today := [] } : CollState).global
    ∧ ¬ ((strL "k", (0 : Int)) ∈
        (markAsCollected { global := [(strL "k", 0)], today := [] } {} 2678400000).global) :=
  ⟨by decide,
   claim_C9 { global := [(strL "k", 0)], today := [] } {} 2678400000 0 (strL "k")
     (by decide) (by decide)⟩

/-! ## Claims about `normalizeUrl` (C4) -/

/-- C4 counterexample: `b=1` is not on the tracking-parameter list, yet
`normalizeUrl` removes it too — the whole query string is dropped, so the
claim that only listed parameters are removed (others left in place) fails. -/
theorem claim_C4_counterexample :
    normalizeUrl (strL "http://x.com/a?b=1") = strL "http://x.com/a"
    ∧ normalizeUrl (strL "http://x.com/a?b=1") ≠ strL "http://x.com/a?b=1"
    ∧ ¬ (strL "b" ∈ paramsToRemove) := by decide

/-- C4 (amended): `normalizeUrl` maps empty input to the empty string and
malformed input to itself unchanged; on parsable input it rebuilds the URL
from the lowercased scheme, the lowercased host and the path (with one
trailing slash trimmed) only — the entire query string and fragment are
dropped, not merely the tracking parameters. -/
theorem claim_C4 (url : Str) :
    (url.isEmpty = true → normalizeUrl url = [])
    ∧ (parseURL url = none → normalizeUrl url = url)
    ∧ (∀ u, parseURL url = some u →
        normalizeUrl url =
          u.protocol ++ strL "//" ++ u.host ++
            (if (u.pathname.getLast? == some '/') && decide (1 < u.pathname.length)
             then u.pathname.dropLast else u.pathname)) := by
  refine ⟨?_, ?_, ?_⟩
  · intro h
    unfold normalizeUrl
    rw [if_pos h]
  · intro h
    by_cases hurl : url.isEmpty
    · have : url = [] := by
        cases url with
        | nil => rfl
        | cons c rest => simp [List.isEmpty] at hurl
      rw [this]
      rfl
    · unfold normalizeUrl
      rw [if_neg hurl, h]
  · intro u h
    have hurl : url.isEmpty = false := by
      cases url with
      | nil => exact absurd h (by simp [parseURL, splitFirst])
      | cons c rest => rfl
    unfold normalizeUrl
    rw [hurl, h]
    simp

/-- Witness for C4: the amended theorem applied to a concrete URL with
uppercase scheme/host, a tracking parameter, a plain parameter and a
trailing slash. -/
theorem claim_C4_witness :
    normalizeUrl (strL "HTTP://X.com/A/?utm_source=f&b=1") = strL "http://x.com/A" := by
  have h := (claim_C4 (strL "HTTP://X.com/A/?utm_source=f&b=1")).2.2 c4urec (by decide)
  rw [h]
  decide

/-! ## Claims about `markAsPublished` (C3) -/

/-- C3 counterexample: the `published` record written by `markAsPublished`
carries NO `status` field at all (embedded as `none`) — it is neither
`'published'` as the claim states, nor `'processed'`. -/
theorem claim_C3_counterexample :
    (alookup (generateSignalKey c3sig)
        ((({} : DedupTracker).markAsPublished c3sig 5).published)).map PubRecord.status
      = some none
    ∧ (alookup (generateSignalKey c3sig)
        ((({} : DedupTracker).markAsPublished c3sig 5).published)).map PubRecord.status
      ≠ some (some (strL "published")) := by decide

/-- C3 (amended): `markAsPublished` inserts/overwrites the `published`
entry with timestamp, source, title and link but no `status` field; when
content, title or source are present it records the content hash, the
title hash, and appends the current timestamp to that source's
`source_hashes` list pruned to the trailing 24 hours.  Records in
`published` therefore end up with status `'processed'` (from
`markAsProcessed`) or with no status at all — never `'published'`. -/
theorem claim_C3 (t : DedupTracker) (s : Signal) (now : Int) :
    alookup (generateSignalKey s) (t.markAsPublished s now).published
      = some { timestamp := now, source := s.source, title := s.title, link := s.link,
               status := none }
    ∧ (s.content.isEmpty = false →
        alookup (generateContentHash s.content) (t.markAsPublished s now).content_hashes
          = some { timestamp := now, source := s.source, title := s.title, link := s.link,
                   status := none })
    ∧ (s.title.isEmpty = false →
        alookup (generateTitleHash s.title) (t.markAsPublished s now).title_hashes
          = some { timestamp := now, source := s.source, link := s.link })
    ∧ (s.source.isEmpty = false →
        alookup (trimStr (toLowerStr s.source)) (t.markAsPublished s now).source_hashes
          = some ((((alookup (trimStr (toLowerStr s.source)) t.source_hashes).getD []) ++ [now]).filter
              (fun ts => decide (now - 86400000 < ts)))) := by
  by_cases hc : s.content.isEmpty <;> by_cases ht : s.title.isEmpty <;>
    by_cases hs : s.source.isEmpty <;>
    refine ⟨?_, ?_, ?_, ?_⟩ <;>
    simp_all [DedupTracker.markAsPublished, alookup_upsert_self]

/-- Witness for C3: the amended theorem at a concrete signal with every
field present, on the empty tracker. -/
theorem claim_C3_witness :
    alookup (generateSignalKey c3sig) ((({} : DedupTracker).markAsPublished c3sig 5).published)
      = some { timestamp := 5, source := c3sig.source, title := c3sig.title, link := c3sig.link,
               status := none }
    ∧ alookup (generateContentHash c3sig.content)
        ((({} : DedupTracker).markAsPublished c3sig 5).content_hashes)
      = some { timestamp := 5, source := c3sig.source, title := c3sig.title, link := c3sig.link,
               status := none }
    ∧ alookup (generateTitleHash c3sig.title)
        ((({} : DedupTracker).markAsPublished c3sig 5).title_hashes)
      = some { timestamp := 5, source := c3sig.source, link := c3sig.link }
    ∧ alookup (trimStr (toLowerStr c3sig.source))
        ((({} : DedupTracker).markAsPublished c3sig 5).source_hashes)
      = some [5] := by
  obtain ⟨h1, h2, h3, h4⟩ := claim_C3 {} c3sig 5
  refine ⟨h1, h2 (by decide), h3 (by decide), ?_⟩
  rw [h4 (by decide)]
  decide

/-! ## Hash and similarity lemmas (C8) -/

theorem toInt32_bounds (x : Int) : -2147483648 ≤ toInt32 x ∧ toInt32 x < 2147483648 := by
  unfold toInt32
  have h1 : 0 ≤ x % 4294967296 := Int.emod_nonneg x (by omega)
  have h2 : x % 4294967296 < 4294967296 := Int.emod_lt_of_pos x (by omega)
  split <;> omega

theorem foldl_hashStep_bounds :
    ∀ (s : Str) (h : Int), -2147483648 ≤ h → h < 2147483648 →
      -2147483648 ≤ s.foldl hashStep h ∧ s.foldl hashStep h < 2147483648 := by
  intro s
  induction s with
  | nil => intro h h1 h2; exact ⟨h1, h2⟩
  | cons c rest ih =>
    intro h h1 h2
    simp only [List.foldl_cons]
    have hb := toInt32_bounds (toInt32 (h * 32) - h + (c.toNat : Int))
    exact ih _ hb.1 hb.2

theorem toBase36Go_length_pos (fuel n : Nat) (h : 0 < fuel) :
    1 ≤ (toBase36Go fuel n).length := by
  cases fuel with
  | zero => omega
  | succ fuel =>
    unfold toBase36Go
    by_cases h36 : n < 36
    · simp [h36]
    · simp [h36]

theorem toBase36Go_length_le :
    ∀ (fuel n k : Nat), n < fuel → n < 36 ^ k → 1 ≤ k → (toBase36Go fuel n).length ≤ k := by
  intro fuel
  induction fuel with
  | zero => intro n k h; omega
  | succ fuel ih =>
    intro n k hfuel hn hk
    unfold toBase36Go
    by_cases h36 : n < 36
    · simp only [h36, if_true, List.length_cons, List.length_nil]
      omega
    · simp only [h36, if_false, List.length_append, List.length_cons, List.length_nil]
      have hk2 : 2 ≤ k := by
        rcases Nat.lt_or_ge k 2 with hlt | hge
        · have hk1 : k = 1 := by omega
          subst hk1
          simp at hn
          omega
        · exact hge
      have hdiv : n / 36 < n := Nat.div_lt_self (by omega) (by omega)
      have hpow : 36 ^ k = 36 ^ (k - 1) * 36 := by
        rw [← pow_succ]
        rw [Nat.sub_add_cancel (by omega : 1 ≤ k)]
      have hrec := ih (n / 36) (k - 1) (by omega)
        ((Nat.div_lt_iff_lt_mul (by omega)).mpr (by omega)) (by omega)
      omega

theorem simpleHash_length (s : Str) :
    1 ≤ (simpleHash s).length ∧ (simpleHash s).length ≤ 6 := by
  unfold simpleHash toBase36
  have hb := foldl_hashStep_bounds s 0 (by omega) (by omega)
  have habs : (s.foldl hashStep 0).natAbs ≤ 2147483648 := by omega
  refine ⟨toBase36Go_length_pos _ _ (by omega), ?_⟩
  apply toBase36Go_length_le
  · omega
  · have h36 : (36 : Nat) ^ 6 = 2176782336 := by norm_num
    omega
  · omega

theorem zipMatch_eq_posMatch :
    ∀ (l₁ l₂ : Str),
      ((l₁.zip l₂).filter (fun p => p.1 == p.2)).length
        = (List.range (min l₁.length l₂.length)).countP
            (fun i => decide (l₁.get? i = l₂.get? i)) := by
  intro l₁
  induction l₁ with
  | nil => intro l₂; simp
  | cons a l₁ ih =>
    intro l₂
    cases l₂ with
    | nil => simp
    | cons b l₂ =>
      rw [List.zip_cons_cons, List.filter_cons]
      simp only [List.length_cons, Nat.succ_min_succ, List.range_succ_eq_map,
        List.countP_cons, List.countP_map]
      have hcomp : ((fun i => decide ((a :: l₁).get? i = (b :: l₂).get? i)) ∘ Nat.succ)
          = fun i => decide (l₁.get? i = l₂.get? i) := by
        funext i
        simp [List.get?_cons_succ]
      rw [hcomp, ← ih l₂]
      by_cases hab : a = b
      · subst hab
        simp
      · have h1 : (a == b) = false := by simp [hab]
        have h2 : decide ((a :: l₁).get? 0 = (b :: l₂).get? 0) = false := by
          simp [List.get?_cons_zero, hab]
      
        rw [h1, h2]
        simp

theorem calculateSimilarity_comm (h₁ h₂ : Str) :
    calculateSimilarity h₁ h₂ = calculateSimilarity h₂ h₁ := by
  have hm : ((h₂.zip h₁).filter (fun p => p.1 == p.2)).length
      = ((h₁.zip h₂).filter (fun p => p.1 == p.2)).length := by
    rw [zipMatch_eq_posMatch, zipMatch_eq_posMatch, Nat.min_comm]
    apply List.countP_congr
    intro i _
    simp only [decide_eq_true_eq]
    exact eq_comm
  simp only [calculateSimilarity, hm, Nat.max_comm h₂.length h₁.length]

theorem calculateSimilarity_bounds (h₁ h₂ : Str) :
    0 ≤ calculateSimilarity h₁ h₂ ∧ calculateSimilarity h₁ h₂ ≤ 1 := by
  unfold calculateSimilarity
  by_cases hm : max h₁.length h₂.length = 0
  · simp [hm]
  · simp only [hm, if_false]
    have hpos : (0 : ℚ) < ((max h₁.length h₂.length : ℕ) : ℚ) := by
      exact_mod_cast Nat.pos_of_ne_zero hm
    constructor
    · positivity
    · rw [div_le_one hpos]
      have hle : ((h₁.zip h₂).filter (fun p => p.1 == p.2)).length
          ≤ max h₁.length h₂.length := by
        have h1 : ((h₁.zip h₂).filter (fun p => p.1 == p.2)).length ≤ (h₁.zip h₂).length :=
          List.length_filter_le _ _
        have h2 : (h₁.zip h₂).length = min h₁.length h₂.length := List.length_zip h₁ h₂
        omega
      exact_mod_cast hle

theorem calculateSimilarity_formula (h₁ h₂ : Str) (h : max h₁.length h₂.length ≠ 0) :
    calculateSimilarity h₁ h₂ =
      ((List.range (min h₁.length h₂.length)).countP
          (fun i => decide (h₁.get? i = h₂.get? i)) : ℚ)
        / ((max h₁.length h₂.length : ℕ) : ℚ) := by
  unfold calculateSimilarity
  rw [if_neg h]
  simp [zipMatch_eq_posMatch]

/-! ## Claims about the Approximate Hasher (C8) -/

/-- C8 counterexample: `simpleHash` is NOT fixed-width — the empty string
hashes to a 1-character token while `"a"` hashes to a 2-character token,
so no single width `w` covers every produced token. -/
theorem claim_C8_counterexample :
    (simpleHash (strL "")).length = 1
    ∧ (simpleHash (strL "a")).length = 2
    ∧ (simpleHash (strL "")).length ≠ (simpleHash (strL "a")).length := by decide

/-- C8 (amended): `simpleHash` is deterministic (it is a pure function of
its input) but variable-width: every token has between 1 and 6 base-36
characters, not one fixed width.  `calculateSimilarity` is symmetric,
always lies in `[0, 1]`, and — whenever at least one hash is non-empty —
equals the number of positions below the shorter length holding equal
characters, divided by the longer length. -/
theorem claim_C8 (text h₁ h₂ : Str) :
    (1 ≤ (simpleHash text).length ∧ (simpleHash text).length ≤ 6)
    ∧ calculateSimilarity h₁ h₂ = calculateSimilarity h₂ h₁
    ∧ 0 ≤ calculateSimilarity h₁ h₂ ∧ calculateSimilarity h₁ h₂ ≤ 1
    ∧ (max h₁.length h₂.length ≠ 0 →
        calculateSimilarity h₁ h₂ =
          ((List.range (min h₁.length h₂.length)).countP
              (fun i => decide (h₁.get? i = h₂.get? i)) : ℚ)
            / ((max h₁.length h₂.length : ℕ) : ℚ)) :=
  ⟨simpleHash_length text, calculateSimilarity_comm h₁ h₂,
   (calculateSimilarity_bounds h₁ h₂).1, (calculateSimilarity_bounds h₁ h₂).2,
   calculateSimilarity_formula h₁ h₂⟩

/-- Witness for C8: the positional-match formula applied to the concrete
hash pair `"ab"` / `"ax"` (similarity one half). -/
theorem claim_C8_witness :
    calculateSimilarity (strL "ab") (strL "ax") =
      ((List.range (min (strL "ab").length (strL "ax").length)).countP
          (fun i => decide ((strL "ab").get? i = (strL "ax").get? i)) : ℚ)
        / ((max (strL "ab").length (strL "ax").length : ℕ) : ℚ) :=
  (claim_C8 (strL "a") (strL "ab") (strL "ax")).2.2.2.2 (by decide)

/-! ## Deduplication tracker lemmas (C6, C1) -/

/-- Any stored entry (in `published` or `content_hashes`) whose cleaned
link contains the cleaned URL makes `checkURLAlreadyProcessed` fire. -/
theorem checkURL_of_entry (t : DedupTracker) (u k : Str) (r : PubRecord)
    (hu : u.isEmpty = false)
    (hmem : (k, r) ∈ t.published ∨ (k, r) ∈ t.content_hashes)
    (hlink : r.link.isEmpty = false)
    (hinf : cleanUrlJS u <:+: cleanUrlJS r.link) :
    t.checkURLAlreadyProcessed u = true := by
  unfold DedupTracker.checkURLAlreadyProcessed
  rw [if_neg (by simp [hu])]
  have hpred : (!r.link.isEmpty && isInfixB (cleanUrlJS u) (toLowerStr r.link)) = true := by
    rw [Bool.and_eq_true]
    exact ⟨by simp [hlink], (isInfixB_iff _ _).mpr (cleanUrlJS_infixOf_toLower hinf)⟩
  rcases hmem with hm | hm
  · apply Bool.or_eq_true_iff.mpr
    exact Or.inl (List.any_eq_true.mpr ⟨(k, r), hm, hpred⟩)
  · apply Bool.or_eq_true_iff.mpr
    exact Or.inr (List.any_eq_true.mpr ⟨(k, r), hm, hpred⟩)

theorem markAsPublished_published (t : DedupTracker) (s : Signal) (now : Int) :
    (t.markAsPublished s now).published =
      upsert (generateSignalKey s)
        { timestamp := now, source := s.source, title := s.title, link := s.link }
        t.published := by
  unfold DedupTracker.markAsPublished
  by_cases hc : s.content.isEmpty <;> by_cases ht : s.title.isEmpty <;>
    by_cases hs : s.source.isEmpty <;> simp [hc, ht, hs]

theorem markAsProcessed_published (t : DedupTracker) (s : Signal) (now : Int) :
    (t.markAsProcessed s now).published =
      upsert (generateSignalKey s)
        { timestamp := now, source := s.source, title := s.title, link := s.link,
          status := some (strL "processed") }
        t.published := by
  unfold DedupTracker.markAsProcessed
  by_cases hc : s.content.isEmpty <;> simp [hc]

theorem mem_published_markAsPublished (t : DedupTracker) (s : Signal) (now : Int) :
    (generateSignalKey s,
      ({ timestamp := now, source := s.source, title := s.title, link := s.link } : PubRecord))
      ∈ (t.markAsPublished s now).published := by
  rw [markAsPublished_published]
  exact mem_upsert_self _ _ _

theorem mem_published_markAsProcessed (t : DedupTracker) (s : Signal) (now : Int) :
    (generateSignalKey s,
      ({ timestamp := now, source := s.source, title := s.title, link := s.link,
         status := some (strL "processed") } : PubRecord))
      ∈ (t.markAsProcessed s now).published := by
  rw [markAsProcessed_published]
  exact mem_upsert_self _ _ _

/-- Later mark operations never remove a key from `published`. -/
theorem isSome_published_applyOps (ops : List DedupOp) :
    ∀ (t : DedupTracker) (k : Str), (alookup k t.published).isSome →
      (alookup k (applyOps t ops).published).isSome := by
  induction ops with
  | nil => intro t k h; exact h
  | cons op rest ih =>
    intro t k h
    show (alookup k (applyOps (applyOp t op) rest).published).isSome
    apply ih
    cases op with
    | pub s now =>
      show (alookup k (t.markAsPublished s now).published).isSome
      rw [markAsPublished_published]
      exact isSome_alookup_upsert _ _ h
    | proc s now =>
      show (alookup k (t.markAsProcessed s now).published).isSome
      rw [markAsProcessed_published]
      exact isSome_alookup_upsert _ _ h

/-! ## Claims about the URL guard (C6) -/

/-- C6: whenever a stored record — written under ANY composite key, i.e.
any title and source — has a non-empty link whose cleaned form contains
the cleaned form of the queried URL, `checkURLAlreadyProcessed` returns
true; and in particular it does so immediately after `markAsPublished` or
`markAsProcessed` of a signal with such a link.  Only the stored `link`
fields matter. -/
theorem claim_C6 :
    (∀ (t : DedupTracker) (u k : Str) (r : PubRecord),
        u.isEmpty = false →
        ((k, r) ∈ t.published ∨ (k, r) ∈ t.content_hashes) →
        r.link.isEmpty = false →
        cleanUrlJS u <:+: cleanUrlJS r.link →
        t.checkURLAlreadyProcessed u = true)
    ∧ (∀ (t : DedupTracker) (s : Signal) (u : Str) (now : Int),
        u.isEmpty = false →
        s.link.isEmpty = false →
        cleanUrlJS u <:+: cleanUrlJS s.link →
        (t.markAsPublished s now).checkURLAlreadyProcessed u = true
        ∧ (t.markAsProcessed s now).checkURLAlreadyProcessed u = true) := by
  constructor
  · intro t u k r hu hmem hlink hinf
    exact checkURL_of_entry t u k r hu hmem hlink hinf
  · intro t s u now hu hlink hinf
    constructor
    · exact checkURL_of_entry _ u (generateSignalKey s) _ hu
        (Or.inl (mem_published_markAsPublished t s now)) hlink hinf
    · exact checkURL_of_entry _ u (generateSignalKey s) _ hu
        (Or.inl (mem_published_markAsProcessed t s now)) hlink hinf

/-- Witness for C6: a link published under source A / title T answers a
query for the same URL with an upper-case host and an extra query string,
issued with a completely different title and source in play. -/
theorem claim_C6_witness :
    ((({} : DedupTracker).markAsPublished
        { source := strL "A", title := strL "T", link := strL "http://x.com/page" } 0)
      ).checkURLAlreadyProcessed (strL "HTTP://X.com/page?utm_source=z#frag") = true :=
  ((claim_C6.2 {}
      { source := strL "A", title := strL "T", link := strL "http://x.com/page" }
      (strL "HTTP://X.com/page?utm_source=z#frag") 0
      (by decide) (by decide) (by decide))).1

/-! ## Claims about publish-once (C1) -/

/-- C1 counterexample: immediately after `markAsPublished`, with every
check enabled (default options), `checkDeduplication` does flag the
analysis as a duplicate — but through the URL-processed short-circuit, so
`already_published` is NOT among the reasons, contrary to the claim. -/
theorem claim_C1_counterexample :
    ((({} : DedupTracker).markAsPublished c1sig 0).checkDeduplication c1sig {} 1).isDuplicate = true
    ∧ ¬ (strL "already_published"
          ∈ ((({} : DedupTracker).markAsPublished c1sig 0).checkDeduplication c1sig {} 1).reasons) := by
  decide

/-- C1 (amended): after `markAsPublished(A)` — and after any further mark
operations on the same tracker — `checkAlreadyPublished(A)` stays true and
`checkDeduplication(A)` with the URL and published checks enabled always
reports a duplicate; but its single reason is `url_already_processed`
whenever the URL guard fires (always the case right after the mark when
`A.link` is non-empty), and `already_published` only otherwise (always the
case when `A.link` is empty). -/
theorem claim_C1 (t : DedupTracker) (A : Signal) (now now' : Int) (ops : List DedupOp)
    (o : DedupOptions) (hurl : o.checkURLProcessed = true)
    (hpub : o.checkAlreadyPublished = true) :
    (applyOps (t.markAsPublished A now) ops).checkAlreadyPublished A = true
    ∧ ((applyOps (t.markAsPublished A now) ops).checkDeduplication A o now').isDuplicate = true
    ∧ (((applyOps (t.markAsPublished A now) ops).checkDeduplication A o now').reasons
          = [strL "url_already_processed"]
       ∨ ((applyOps (t.markAsPublished A now) ops).checkDeduplication A o now').reasons
          = [strL "already_published"])
    ∧ (A.link.isEmpty = true →
        ((applyOps (t.markAsPublished A now) ops).checkDeduplication A o now').reasons
          = [strL "already_published"])
    ∧ (A.link.isEmpty = false → ops = [] →
        ((applyOps (t.markAsPublished A now) ops).checkDeduplication A o now').reasons
          = [strL "url_already_processed"]) := by
  have hP : (applyOps (t.markAsPublished A now) ops).checkAlreadyPublished A = true := by
    unfold DedupTracker.checkAlreadyPublished
    apply isSome_published_applyOps
    rw [markAsPublished_published, alookup_upsert_self]
    rfl
  refine ⟨hP, ?_, ?_, ?_, ?_⟩
  · unfold DedupTracker.checkDeduplication
    by_cases hl : A.link.isEmpty
    · simp [hl, hP, hpub]
    · by_cases hb : (applyOps (t.markAsPublished A now) ops).checkURLAlreadyProcessed A.link
      · simp [hurl, hl, hb]
      · simp [hurl, hl, hb, hpub, hP]
  · unfold DedupTracker.checkDeduplication
    by_cases hl : A.link.isEmpty
    · simp [hl, hP, hpub]
    · by_cases hb : (applyOps (t.markAsPublished A now) ops).checkURLAlreadyProcessed A.link
      · simp [hurl, hl, hb]
      · simp [hurl, hl, hb, hpub, hP]
  · intro hl
    unfold DedupTracker.checkDeduplication
    simp [hl, hP, hpub]
  · intro hl hops
    subst hops
    have hb : (applyOps (t.markAsPublished A now) []).checkURLAlreadyProcessed A.link = true := by
      show (t.markAsPublished A now).checkURLAlreadyProcessed A.link = true
      exact checkURL_of_entry _ A.link (generateSignalKey A) _ hl
        (Or.inl (mem_published_markAsPublished t A now)) hl ( List.infix_rfl)
    unfold DedupTracker.checkDeduplication
    simp [hurl, hl, hb]

/-- Witness for C1: the amended theorem at a concrete analysis with a
non-empty link, no later operations, default options. -/
theorem claim_C1_witness :
    (applyOps (({} : DedupTracker).markAsPublished c1sig 0) []).checkAlreadyPublished c1sig = true
    ∧ ((applyOps (({} : DedupTracker).markAsPublished c1sig 0) []).checkDeduplication
          c1sig {} 1).reasons = [strL "url_already_processed"] := by
  obtain ⟨h1, h2, h3, h4, h5⟩ := claim_C1 {} c1sig 0 1 [] {} rfl rfl
  exact ⟨h1, h5 (by decide) rfl⟩

/-! ## Claim about check ordering and accumulation (C7) -/

set_option maxHeartbeats 1000000 in
/-- C7: with every check enabled, `checkDeduplication` short-circuits on
the URL-processed check, then on the already-published check; past those,
the content, title and source checks are all evaluated, each firing check
appends its reason (in that fixed order) to `reasons`, and the result is a
duplicate exactly when at least one of the three fires. -/
theorem claim_C7 (t : DedupTracker) (s : Signal) (o : DedupOptions) (now : Int)
    (h1 : o.checkURLProcessed = true) (h2 : o.checkAlreadyPublished = true)
    (h3 : o.checkContent = true) (h4 : o.checkTitle = true) (h5 : o.checkSource = true) :
    (s.link.isEmpty = false → t.checkURLAlreadyProcessed s.link = true →
        t.checkDeduplication s o now =
          { isDuplicate := true, reasons := [strL "url_already_processed"],
            details := { urlProcessed := true } })
    ∧ ((s.link.isEmpty = true ∨ t.checkURLAlreadyProcessed s.link = false) →
        t.checkAlreadyPublished s = true →
        t.checkDeduplication s o now =
          { isDuplicate := true, reasons := [strL "already_published"],
            details := { alreadyPublished := true } })
    ∧ ((s.link.isEmpty = true ∨ t.checkURLAlreadyProcessed s.link = false) →
        t.checkAlreadyPublished s = false →
        ((t.checkDeduplication s o now).reasons =
            (if s.content.isEmpty = false
                ∧ (t.checkContentSimilarity s.content o.contentSimilarityThreshold).isDuplicate = true
             then [(t.checkContentSimilarity s.content o.contentSimilarityThreshold).reason]
             else [])
            ++ (if s.title.isEmpty = false
                  ∧ (t.checkTitleSimilarity s.title o.titleSimilarityThreshold).isDuplicate = true
               then [(t.checkTitleSimilarity s.title o.titleSimilarityThreshold).reason]
               else [])
            ++ (if s.source.isEmpty = false
                  ∧ (t.checkSourceFrequency s.source o.maxSourcePerHour now).isDuplicate = true
               then [(t.checkSourceFrequency s.source o.maxSourcePerHour now).reason]
               else [])
          ∧ ((t.checkDeduplication s o now).isDuplicate = true ↔
              ((s.content.isEmpty = false
                  ∧ (t.checkContentSimilarity s.content o.contentSimilarityThreshold).isDuplicate = true)
               ∨ (s.title.isEmpty = false
                  ∧ (t.checkTitleSimilarity s.title o.titleSimilarityThreshold).isDuplicate = true)
               ∨ (s.source.isEmpty = false
                  ∧ (t.checkSourceFrequency s.source o.maxSourcePerHour now).isDuplicate = true))))) := by
  refine ⟨?_, ?_, ?_⟩
  · intro hl hb
    unfold DedupTracker.checkDeduplication
    simp [h1, hl, hb]
  · intro hfirst hp
    unfold DedupTracker.checkDeduplication
    rcases hfirst with hl | hb
    · simp [hl, h2, hp]
    · simp [hb, h2, hp]
  · intro hfirst hp
    unfold DedupTracker.checkDeduplication
    have hcond1 : (o.checkURLProcessed && !s.link.isEmpty
        && t.checkURLAlreadyProcessed s.link) = false := by
      rcases hfirst with hl | hb
      · simp [hl]
      · simp [hb]
    have hcond2 : (o.checkAlreadyPublished && t.checkAlreadyPublished s) = false := by
      simp [hp]
    by_cases hc : s.content.isEmpty <;> by_cases ht : s.title.isEmpty <;>
      by_cases hs : s.source.isEmpty <;>
      by_cases hcc : (t.checkContentSimilarity s.content o.contentSimilarityThreshold).isDuplicate <;>
      by_cases hct : (t.checkTitleSimilarity s.title o.titleSimilarityThreshold).isDuplicate <;>
      by_cases hcs : (t.checkSourceFrequency s.source o.maxSourcePerHour now).isDuplicate <;>
      simp [hcond1, hcond2, h3, h4, h5, hc, ht, hs, hcc, hct, hcs]

/-- Witness for C7: with the URL and published checks not firing, the title
and source checks both fire and both reasons are accumulated in order. -/
theorem claim_C7_witness :
    (t7c.checkDeduplication s7c {} 40).reasons
      = [strL "exact_title_match", strL "source_frequency_limit"] := by
  have h := (claim_C7 t7c s7c {} 40 rfl rfl rfl rfl rfl).2.2 (Or.inl (by decide)) (by decide)
  rw [h.1]
  decide

/-! ## Claims about `filterSignalsForPublishing` (C10) -/

theorem fspGo_length_le (t : DedupTracker) (now : Int) (o : PublishOptions) :
    ∀ (l : List Signal) (n : Nat), n < o.maxSignalsPerRun →
      n + (fspGo t now o l n).1.length ≤ o.maxSignalsPerRun := by
  intro l
  induction l with
  | nil =>
    intro n h
    simp only [fspGo, List.length_nil]
    omega
  | cons s rest ih =>
    intro n h
    unfold fspGo
    by_cases hd : (t.checkDeduplication s (pubCheckOptions o) now).isDuplicate
    · simp only [hd, if_true]
      by_cases hn : o.maxSignalsPerRun ≤ n
      · simp only [hn, if_true, List.length_nil]
        omega
      · simp only [hn, if_false]
        exact ih n h
    · simp only [hd, Bool.false_eq_true, if_false]
      by_cases hn : o.maxSignalsPerRun ≤ n + 1
      · simp only [hn, if_true, List.length_cons, List.length_nil]
        omega
      · simp only [hn, if_false, List.length_cons]
        have := ih (n + 1) (by omega)
        omega

theorem fspGo_partition (t : DedupTracker) (now : Int) (o : PublishOptions) :
    ∀ (l : List Signal) (n : Nat),
      ∃ k, k ≤ l.length ∧
        (fspGo t now o l n).1 = (l.take k).filter
            (fun s => !(t.checkDeduplication s (pubCheckOptions o) now).isDuplicate) ∧
        ((fspGo t now o l n).2).map DupEntry.signal = (l.take k).filter
            (fun s => (t.checkDeduplication s (pubCheckOptions o) now).isDuplicate) := by
  intro l
  induction l with
  | nil => intro n; exact ⟨0, by simp [fspGo]⟩
  | cons s rest ih =>
    intro n
    unfold fspGo
    by_cases hd : (t.checkDeduplication s (pubCheckOptions o) now).isDuplicate
    · by_cases hn : o.maxSignalsPerRun ≤ n
      · refine ⟨1, by simp, ?_, ?_⟩ <;> simp [hd, hn]
      · obtain ⟨k, hk, ha, hdup⟩ := ih n
        refine ⟨k + 1, by simpa using Nat.succ_le_succ hk, ?_, ?_⟩ <;>
          simp [hd, hn, List.filter_cons, ha, hdup]
    · by_cases hn : o.maxSignalsPerRun ≤ n + 1
      · refine ⟨1, by simp, ?_, ?_⟩ <;> simp [hd, hn]
      · obtain ⟨k, hk, ha, hdup⟩ := ih (n + 1)
        refine ⟨k + 1, by simpa using Nat.succ_le_succ hk, ?_, ?_⟩ <;>
          simp [hd, hn, List.filter_cons, ha, hdup]

/-- C10 counterexample: with `maxSignalsPerRun = 0` the loop still
processes (and approves) the first signal before testing the cap, so
`approved` exceeds `maxSignalsPerRun`. -/
theorem claim_C10_counterexample :
    (({} : DedupTracker).filterSignalsForPublishing [c10sig]
        { maxSignalsPerRun := 0 } 0).1.length = 1
    ∧ ¬ ((({} : DedupTracker).filterSignalsForPublishing [c10sig]
        { maxSignalsPerRun := 0 } 0).1.length
          ≤ ({ maxSignalsPerRun := 0 } : PublishOptions).maxSignalsPerRun) := by decide

/-- C10 (amended): `filterSignalsForPublishing` always returns `skipped`
empty; for any positive cap it approves at most `maxSignalsPerRun`
signals (the cap can be exceeded only in the degenerate `maxSignalsPerRun
= 0` case); and the signals it evaluates before stopping are exactly a
prefix of the input, split in order into `approved` (non-duplicates) and
`duplicates`. -/
theorem claim_C10 (t : DedupTracker) (signals : List Signal) (o : PublishOptions) (now : Int)
    (hmax : 1 ≤ o.maxSignalsPerRun) :
    (t.filterSignalsForPublishing signals o now).2.2 = []
    ∧ (t.filterSignalsForPublishing signals o now).1.length ≤ o.maxSignalsPerRun
    ∧ ∃ k, k ≤ signals.length ∧
        (t.filterSignalsForPublishing signals o now).1 = (signals.take k).filter
            (fun s => !(t.checkDeduplication s (pubCheckOptions o) now).isDuplicate) ∧
        ((t.filterSignalsForPublishing signals o now).2.1).map DupEntry.signal
          = (signals.take k).filter
            (fun s => (t.checkDeduplication s (pubCheckOptions o) now).isDuplicate) := by
  refine ⟨rfl, ?_, ?_⟩
  · have h := fspGo_length_le t now o signals 0 (by omega)
    show (fspGo t now o signals 0).1.length ≤ o.maxSignalsPerRun
    omega
  · exact fspGo_partition t now o signals 0

/-- Witness for C10: the amended theorem on a one-signal batch with the
default cap of 50. -/
theorem claim_C10_witness :
    (({} : DedupTracker).filterSignalsForPublishing [c10sig] {} 0).2.2 = []
    ∧ (({} : DedupTracker).filterSignalsForPublishing [c10sig] {} 0).1.length
        ≤ ({} : PublishOptions).maxSignalsPerRun := by
  obtain ⟨ha, hb, _⟩ := claim_C10 {} [c10sig] {} 0 (by decide)
  exact ⟨ha, hb⟩
